import Mathlib

/-!
Verification of the framed binary command protocol in `src/command.c`.

The development shallowly embeds the C code: bytes are `Nat` values below 256,
byte buffers are `List Nat`, machine-integer truncation is explicit `% 2^w`
(or `&&& mask`), and the mutable globals (`next_sequence`, `sync_state`) are
threaded as explicit state.  Each definition mirrors one C function; line
numbers in the doc comments refer to `src/command.c`.
-/

/-! ## Message framing constants (command.c lines 18-29) -/

def MESSAGE_MIN : Nat := 5
def MESSAGE_MAX : Nat := 64
def MESSAGE_HEADER_SIZE : Nat := 2
def MESSAGE_TRAILER_SIZE : Nat := 3
def MESSAGE_POS_LEN : Nat := 0
def MESSAGE_POS_SEQ : Nat := 1
def MESSAGE_TRAILER_CRC : Nat := 3
def MESSAGE_TRAILER_SYNC : Nat := 1
def MESSAGE_SEQ_MASK : Nat := 0x0f
def MESSAGE_DEST : Nat := 0x10
def MESSAGE_SYNC : Nat := 0x7E

/-! ## CRC engine (command.c lines 39-53) -/

/-- One iteration of the `crc16_ccitt` while-loop (lines 45-51).  `crc` is the
    `uint16_t` accumulator, `b` the next input byte.  Every intermediate
    `uint8_t` assignment is rendered as an explicit `&&& 0xff` mask and the
    final `uint16_t` assignment as `&&& 0xffff`. -/
def crc16_update (crc b : Nat) : Nat :=
  let data := (b &&& 0xff) ^^^ (crc &&& 0xff)
  let data := (data ^^^ (data <<< 4)) &&& 0xff
  (((data <<< 8) ||| (crc >>> 8)) ^^^ ((data >>> 4) &&& 0xff) ^^^ (data <<< 3)) &&& 0xffff

/-- `crc16_ccitt(buf, len)` (lines 39-53): fold the update over the buffer
    starting from the initial value 0xffff. -/
def crc16_ccitt (buf : List Nat) : Nat :=
  buf.foldl crc16_update 0xffff

/-! ## VLQ codec (command.c lines 56-87) -/

/-- The signed 32-bit reinterpretation `int32_t sv = v;` (line 59). -/
def i32 (v : Nat) : Int :=
  if v < 2 ^ 31 then (v : Int) else (v : Int) - 2 ^ 32

/-- `encode_int` (lines 56-70): emit the variable length quantity encoding of
    the 32-bit value `v`, returned as the list of bytes written through the
    cursor.  The threshold tests are on the signed view `sv`; the fall-through
    labels f1-f4 become explicit byte lists. -/
def encode_int (v : Nat) : List Nat :=
  let sv := i32 v
  if sv < 3 * 2 ^ 5 ∧ -(2 ^ 5 : Int) ≤ sv then
    [v &&& 0x7f]
  else if sv < 3 * 2 ^ 12 ∧ -(2 ^ 12 : Int) ≤ sv then
    [((v >>> 7) &&& 0x7f) ||| 0x80, v &&& 0x7f]
  else if sv < 3 * 2 ^ 19 ∧ -(2 ^ 19 : Int) ≤ sv then
    [((v >>> 14) &&& 0x7f) ||| 0x80, ((v >>> 7) &&& 0x7f) ||| 0x80, v &&& 0x7f]
  else if sv < 3 * 2 ^ 26 ∧ -(2 ^ 26 : Int) ≤ sv then
    [((v >>> 21) &&& 0x7f) ||| 0x80, ((v >>> 14) &&& 0x7f) ||| 0x80,
     ((v >>> 7) &&& 0x7f) ||| 0x80, v &&& 0x7f]
  else
    [(v >>> 28) ||| 0x80, ((v >>> 21) &&& 0x7f) ||| 0x80, ((v >>> 14) &&& 0x7f) ||| 0x80,
     ((v >>> 7) &&& 0x7f) ||| 0x80, v &&& 0x7f]

/-- The `while (c & 0x80)` loop of `parse_int` (lines 81-84).  `c` is the byte
    last read, `v` the `uint32_t` accumulator; the result pairs the final value
    with the number of additional bytes consumed by the loop.  Reading past the
    available bytes yields `none` (the C code would read adjacent memory). -/
def parse_int_loop (c v : Nat) : List Nat → Option (Nat × Nat)
  | [] => if c &&& 0x80 = 0 then some (v, 0) else none
  | c2 :: rest =>
    if c &&& 0x80 = 0 then some (v, 0)
    else
      (parse_int_loop c2 (((v <<< 7) % 2 ^ 32) ||| (c2 &&& 0x7f)) rest).map
        fun r => (r.1, r.2 + 1)

/-- `parse_int` (lines 73-87): decode one VLQ from the byte list, returning the
    decoded `uint32_t` value and the total number of bytes consumed (the cursor
    advance `*pp = p`). -/
def parse_int (l : List Nat) : Option (Nat × Nat) :=
  match l with
  | [] => none
  | c :: rest =>
    let v := c &&& 0x7f
    let v := if c &&& 0x60 = 0x60 then v ||| 0xFFFFFFE0 else v
    (parse_int_loop c v rest).map fun r => (r.1, r.2 + 1)

/-! ## CRC trailer comparison (command.c lines 251-254) -/

/-- 32-bit two's-complement bit pattern of the value a signed `char` holding
    byte `b` promotes to (the unmasked `buf[msglen-MESSAGE_TRAILER_CRC]` read
    at line 251 sign-extends when bit 7 is set). -/
def sext8 (b : Nat) : Nat :=
  if b < 0x80 then b else b + 0xFFFFFF00

/-- The `uint16_t msgcrc` computation of lines 251-252: the sign-extended high
    byte is shifted left by 8 in `int` arithmetic (32-bit pattern), or-ed with
    the unsigned low byte, and truncated to 16 bits by the assignment. -/
def msgcrcOf (hi lo : Nat) : Nat :=
  (((sext8 hi <<< 8) % 2 ^ 32) ||| (lo &&& 0xff)) &&& 0xffff

/-- The step-7 CRC comparison of `command_get_message` (lines 251-254): the CRC
    computed over `buf[0..msglen-3)` must equal `msgcrc`. -/
def crcCheckOk (buf : List Nat) (msglen : Nat) : Bool :=
  crc16_ccitt (buf.take (msglen - MESSAGE_TRAILER_SIZE)) ==
    msgcrcOf (buf.getD (msglen - MESSAGE_TRAILER_CRC) 0)
      (buf.getD (msglen - MESSAGE_TRAILER_CRC + 1) 0)

/-! ## Frame reception (command.c lines 226-289) -/

/-- The mutable receiver state: the global `next_sequence` (line 31) and the
    two `sync_state` flags `CF_NEED_SYNC` and `CF_NEED_VALID` (line 226,
    rendered as two booleans). -/
structure RecvState where
  next_sequence : Nat
  need_sync : Bool
  need_valid : Bool
deriving DecidableEq

/-- Observable outcome of one `command_get_message` call: the updated state,
    the number of input bytes popped, whether the `sendf("")` at line 264 (ack)
    or at line 287 (nak) ran, whether control reached line 256 (the CRC check
    passed) or the `error` label (line 267), and the returned message (`some
    msglen` for a returned frame, `none` for `NULL`). -/
structure GetMsgOut where
  st : RecvState
  popped : Nat
  acked : Bool
  naked : Bool
  crc_ok : Bool
  errored : Bool
  ret : Option Nat
deriving DecidableEq

/-- The `nak:` tail (lines 286-288). -/
def nakPath (st : RecvState) (popped : Nat) (crc_ok errored : Bool) : GetMsgOut :=
  { st := st, popped := popped, acked := false, naked := true, crc_ok := crc_ok,
    errored := errored, ret := none }

/-- The `need_sync:` tail (lines 274-288): `memchr` scan for the next SYNC
    byte, conditional pop, and the `CF_NEED_VALID`-latched nak. -/
def needSyncPath (buf : List Nat) (st : RecvState) (errored : Bool) : GetMsgOut :=
  let scan :=
    match buf.findIdx? (fun b => b == MESSAGE_SYNC) with
    | some i => ({ st with need_sync := false }, i + 1)
    | none => (st, buf.length)
  if scan.1.need_valid then
    { st := scan.1, popped := scan.2, acked := false, naked := false, crc_ok := false,
      errored := errored, ret := none }
  else
    nakPath { scan.1 with need_valid := true } scan.2 false errored

/-- The `error:` label (lines 267-273): swallow a leading SYNC byte quietly,
    otherwise set `CF_NEED_SYNC` and fall into the resync scan. -/
def errorPath (buf : List Nat) (st : RecvState) : GetMsgOut :=
  if buf.getD 0 0 = MESSAGE_SYNC then
    { st := st, popped := 1, acked := false, naked := false, crc_ok := false,
      errored := true, ret := none }
  else
    needSyncPath buf { st with need_sync := true } true

/-- `command_get_message` (lines 229-289) over the currently available input
    bytes `buf` (the `console_get_input` view) and receiver state `st`.
    Byte reads are `List.getD`; `(msgseq & ~MESSAGE_SEQ_MASK)` is the uint8
    mask `&&& 0xf0`. -/
def command_get_message (buf : List Nat) (st : RecvState) : GetMsgOut :=
  if buf.length ≠ 0 ∧ st.need_sync then
    needSyncPath buf st false
  else if buf.length < MESSAGE_MIN then
    { st := st, popped := 0, acked := false, naked := false, crc_ok := false,
      errored := false, ret := none }
  else
    let msglen := buf.getD MESSAGE_POS_LEN 0
    if msglen < MESSAGE_MIN ∨ MESSAGE_MAX < msglen then
      errorPath buf st
    else
      let msgseq := buf.getD MESSAGE_POS_SEQ 0
      if (msgseq &&& 0xf0) ≠ MESSAGE_DEST then
        errorPath buf st
      else if buf.length < msglen then
        { st := st, popped := 0, acked := false, naked := false, crc_ok := false,
          errored := false, ret := none }
      else if buf.getD (msglen - MESSAGE_TRAILER_SYNC) 0 ≠ MESSAGE_SYNC then
        errorPath buf st
      else if ¬ crcCheckOk buf msglen then
        errorPath buf st
      else
        let st1 := { st with need_valid := false }
        if msgseq ≠ st.next_sequence then
          nakPath st1 msglen true false
        else
          { st := { st1 with
                    next_sequence := ((msgseq + 1) &&& MESSAGE_SEQ_MASK) ||| MESSAGE_DEST },
            popped := 0, acked := true, naked := false, crc_ok := true,
            errored := false, ret := some msglen }

/-! ## Frame transmission (command.c lines 131-205) -/

/-- The frame layout produced by the trailer logic of `_sendf` (lines 193-201)
    around an already-encoded payload placed after the two header bytes:
    `buf[0] = msglen`, `buf[1] = seqByte`, big-endian CRC over the first
    `msglen-3` bytes, then the SYNC byte.  `msglen` is stored through a `char`,
    hence the `% 256`. -/
def buildFrame (seqByte : Nat) (payload : List Nat) : List Nat :=
  let body := ((payload.length + MESSAGE_MIN) % 256) :: seqByte :: payload
  let crc := crc16_ccitt body
  body ++ [crc >>> 8, crc &&& 0xff, MESSAGE_SYNC]

/-- Payload a receiver extracts from a returned frame, as `command_task` does
    at lines 300-301: the bytes strictly between the 2-byte header and the
    3-byte trailer, with `msglen` re-read from `buf[0]`. -/
def framePayload (buf : List Nat) : List Nat :=
  (buf.take (buf.getD MESSAGE_POS_LEN 0 - MESSAGE_TRAILER_SIZE)).drop MESSAGE_HEADER_SIZE

/-- Result of `_sendf` for an encoder whose `max_size` is 0 (lines 134-146 and
    193-202): `frame` is the committed byte sequence (`none` when
    `console_get_output` returned NULL), and `next_sequence` the value of the
    global after the call (the function only reads it, at line 196; it assigns
    it in no branch). -/
structure SendfOut where
  frame : Option (List Nat)
  next_sequence : Nat
deriving DecidableEq

/-- `_sendf` specialised to `max_size = 0` (every ack/nak `sendf("")`): the
    `if (max_size)` guard at line 140 skips the whole encoding loop, so
    `p = &buf[2]` is untouched and `msglen = 5`. -/
def sendf_empty (ns : Nat) (reserve_ok : Bool) : SendfOut :=
  if reserve_ok then
    let body := [MESSAGE_MIN, ns]
    let crc := crc16_ccitt body
    { frame := some (body ++ [crc >>> 8, crc &&& 0xff, MESSAGE_SYNC]), next_sequence := ns }
  else
    { frame := none, next_sequence := ns }

/-! ## Command parsing (command.c lines 90-128) and dispatch (lines 292-314) -/

/-- Modelled from the spec: the argument-type enumeration `PT_*` of the
    missing header `command.h`, in the order the spec's section 3 lists the
    types.  Only distinctness of the values matters to `parsef`. -/
def PT_uint32 : Nat := 0
def PT_int32 : Nat := 1
def PT_uint16 : Nat := 2
def PT_int16 : Nat := 3
def PT_byte : Nat := 4
def PT_string : Nat := 5
def PT_buffer : Nat := 6
def PT_progmem_buffer : Nat := 7

/-- Modelled from the spec: the `HF_IN_SHUTDOWN` handler flag of the missing
    header `command.h` ("the parser's flags do not include IN_SHUTDOWN"). -/
def HF_IN_SHUTDOWN : Nat := 1

/-- Outcome of `parsef`: `ok` returns the cursor and the filled argument
    vector, `skip` is the NULL return of the shutdown guard (lines 93-96,
    carrying the reason sent in the `is_shutdown` response), `err` is
    `shutdown("Command parser error")` (line 127), and `oob` marks a
    `parse_int` read past the modelled buffer. -/
inductive ParsefResult where
  | ok (pos : Nat) (args : List Nat)
  | skip (reason : Nat)
  | err
  | oob
deriving DecidableEq

/-- The `while (num_params--)` loop of `parsef` (lines 99-124) over the frame
    buffer `buf`; `pos` is the cursor `p` and `maxend` the bound, both as
    indices into `buf`.  A `PT_buffer` argument pushes its length and its
    start position (the pointer `p`). -/
def parsefLoop (buf : List Nat) (maxend : Nat) :
    List Nat → Nat → List Nat → ParsefResult
  | [], pos, args => .ok pos args
  | t :: rest, pos, args =>
    if maxend < pos then .err
    else if t = PT_uint32 ∨ t = PT_int32 ∨ t = PT_uint16 ∨ t = PT_int16 ∨ t = PT_byte then
      match parse_int (buf.drop pos) with
      | some r => parsefLoop buf maxend rest (pos + r.2) (args ++ [r.1])
      | none => .oob
    else if t = PT_buffer then
      let len := buf.getD pos 0
      if maxend < pos + 1 + len then .err
      else parsefLoop buf maxend rest (pos + 1 + len) (args ++ [len, pos + 1])
    else .err

/-- `parsef` (lines 90-128): the shutdown guard, then the parameter loop.
    `sd` is `sched_is_shutdown()` and `reason` is `sched_shutdown_reason()`. -/
def parsef (sd : Bool) (reason : Nat) (flags : Nat) (param_types : List Nat)
    (buf : List Nat) (pos maxend : Nat) : ParsefResult :=
  if sd ∧ flags &&& HF_IN_SHUTDOWN = 0 then .skip reason
  else parsefLoop buf maxend param_types pos []

/-- One schema entry of `command_index` (the fields of
    `struct command_parser` that `command_task`/`parsef` read). -/
structure Parser where
  flags : Nat
  param_types : List Nat
deriving DecidableEq

/-- Outcome of the `while (p < msgend)` dispatch loop of `command_task`
    (lines 302-311): the handler invocations performed (command id with parsed
    argument vector), and how the loop ended: normally, by the `break` after a
    NULL `parsef` (carrying the is_shutdown reason), or by a fatal shutdown. -/
inductive LoopResult where
  | done (invs : List (Nat × List Nat))
  | skipped (invs : List (Nat × List Nat)) (reason : Nat)
  | failInvalid (invs : List (Nat × List Nat))
  | failParse (invs : List (Nat × List Nat))
  | oobStop (invs : List (Nat × List Nat))
  | noFuel
deriving DecidableEq

/-- The dispatch loop, fuelled (the C loop terminates because the cursor
    strictly advances every iteration; any fuel of at least `msgend` steps
    suffices).  `command_get_handler` (lines 213-224) is the `getD` lookup:
    an out-of-range id and a null entry both shut down. -/
def commandLoop (idx : List (Option Parser)) (sd : Bool) (reason : Nat)
    (buf : List Nat) (msgend : Nat) :
    Nat → Nat → List (Nat × List Nat) → LoopResult
  | 0, _, _ => .noFuel
  | fuel + 1, pos, acc =>
    if msgend ≤ pos then .done acc
    else
      let cmdid := buf.getD pos 0
      match idx.getD cmdid none with
      | none => .failInvalid acc
      | some cp =>
        match parsef sd reason cp.flags cp.param_types buf (pos + 1) msgend with
        | .ok pos2 args => commandLoop idx sd reason buf msgend fuel pos2 (acc ++ [(cmdid, args)])
        | .skip _ => .skipped acc reason
        | .err => .failParse acc
        | .oob => .oobStop acc

/-- Observable outcome of one `command_task` call (lines 292-314). -/
structure TaskOut where
  st : RecvState
  popped : Nat
  invocations : List (Nat × List Nat)
  shutdownResp : Option Nat
  fatal : Option String
deriving DecidableEq

/-- `command_task` (lines 292-314): fetch one message; on NULL return; else
    walk the commands between header and trailer and pop the frame.  A fatal
    `shutdown` does not return, so nothing is popped on those paths. -/
def command_task (idx : List (Option Parser)) (sd : Bool) (reason : Nat)
    (st : RecvState) (input : List Nat) : TaskOut :=
  let g := command_get_message input st
  match g.ret with
  | none =>
    { st := g.st, popped := g.popped, invocations := [], shutdownResp := none, fatal := none }
  | some msglen =>
    let msgend := msglen - MESSAGE_TRAILER_SIZE
    match commandLoop idx sd reason input msgend msgend MESSAGE_HEADER_SIZE [] with
    | .done invs =>
      { st := g.st, popped := g.popped + msglen, invocations := invs,
        shutdownResp := none, fatal := none }
    | .skipped invs r =>
      { st := g.st, popped := g.popped + msglen, invocations := invs,
        shutdownResp := some r, fatal := none }
    | .failInvalid invs =>
      { st := g.st, popped := g.popped, invocations := invs,
        shutdownResp := none, fatal := some "Invalid command" }
    | .failParse invs =>
      { st := g.st, popped := g.popped, invocations := invs,
        shutdownResp := none, fatal := some "Command parser error" }
    | .oobStop invs =>
      { st := g.st, popped := g.popped, invocations := invs,
        shutdownResp := none, fatal := none }
    | .noFuel =>
      { st := g.st, popped := g.popped, invocations := [],
        shutdownResp := none, fatal := none }
/-! ## Arithmetic and byte-level helper lemmas -/

theorem and_0x7f_eq_mod (x : Nat) : x &&& 127 = x % 128 := by
  have h := Nat.and_pow_two_sub_one_eq_mod x 7
  norm_num at h
  exact h

theorem lor_two_pow_eq_add {k : Nat} (a : Nat) : ∀ {b : Nat}, b < 2 ^ k →
    (2 ^ k * a) ||| b = 2 ^ k * a + b := by
  induction k generalizing a with
  | zero =>
    intro b hb
    interval_cases b
    simp
  | succ k ih =>
    intro b hb
    have hh : 2 ^ (k + 1) * a = 2 * (2 ^ k * a) := by ring
    have hp : (2 : Nat) ^ (k + 1) = 2 * 2 ^ k := by ring
    have hd : ((2 ^ (k + 1) * a) ||| b) / 2 = 2 ^ k * a + b / 2 := by
      rw [Nat.or_div_two]
      have h1 : (2 ^ (k + 1) * a) / 2 = 2 ^ k * a := by omega
      rw [h1]
      exact ih a (by omega)
    have hm : ((2 ^ (k + 1) * a) ||| b) % 2 = b % 2 := by
      rcases Nat.mod_two_eq_zero_or_one b with h | h
      · rcases Nat.mod_two_eq_zero_or_one ((2 ^ (k + 1) * a) ||| b) with h2 | h2
        · omega
        · have h4 := Nat.or_mod_two_eq_one.mp h2
          omega
      · rw [Nat.or_mod_two_eq_one.mpr (Or.inr h), h]
    have hx := Nat.div_add_mod ((2 ^ (k + 1) * a) ||| b) 2
    omega

theorem mul128_lor {b : Nat} (a : Nat) (hb : b < 128) : (128 * a) ||| b = 128 * a + b := by
  have h := lor_two_pow_eq_add (k := 7) a (b := b) (by omega)
  norm_num at h
  exact h

theorem lor128_small {y : Nat} (h : y < 128) : y ||| 128 = y + 128 := by
  have h2 := mul128_lor (b := y) 1 h
  rw [Nat.lor_comm] at h2
  norm_num at h2
  omega

theorem shl7_mod (x : Nat) : (x <<< 7) % 2 ^ 32 = 128 * (x % 33554432) := by
  rw [Nat.shiftLeft_eq]
  have h : (2 : Nat) ^ 32 = 33554432 * 2 ^ 7 := by norm_num
  rw [h, Nat.mul_mod_mul_right]
  ring

theorem byte_and96 : ∀ y < 128, ((y + 128) &&& 96 = 96 ↔ 96 ≤ y) := by decide
theorem small_and96 : ∀ y < 128, (y &&& 96 = 96 ↔ 96 ≤ y) := by decide
theorem byte_and128 : ∀ y < 128, (y + 128) &&& 128 = 128 := by decide
theorem small_and128 : ∀ y < 128, y &&& 128 = 0 := by decide
theorem byte_and127 : ∀ y < 128, (y + 128) &&& 127 = y := by decide
theorem lor_sext : ∀ y < 128, 96 ≤ y → y ||| 4294967264 = y + 4294967168 := by decide

theorem parse_int_cons (c : Nat) (rest : List Nat) :
    parse_int (c :: rest) =
      (parse_int_loop c
        (if c &&& 96 = 96 then (c &&& 127) ||| 4294967264 else c &&& 127) rest).map
        fun r => (r.1, r.2 + 1) := rfl

theorem loop_stop {c : Nat} (h : c &&& 128 = 0) (v : Nat) (l : List Nat) :
    parse_int_loop c v l = some (v, 0) := by
  cases l <;> simp [parse_int_loop, h]

theorem loop_cont {c : Nat} (h : c &&& 128 ≠ 0) (v c2 : Nat) (rest : List Nat) :
    parse_int_loop c v (c2 :: rest) =
      (parse_int_loop c2 ((128 * (v % 33554432)) ||| (c2 &&& 127)) rest).map
        fun r => (r.1, r.2 + 1) := by
  simp only [parse_int_loop, if_neg h, shl7_mod]

theorem and128_of_add {y : Nat} (hy : y < 128) : (y + 128) &&& 128 ≠ 0 := by
  rw [byte_and128 _ hy]
  omega

theorem byte_norm (x : Nat) : (x &&& 127) ||| 128 = x % 128 + 128 := by
  rw [and_0x7f_eq_mod, lor128_small (Nat.mod_lt _ (by norm_num))]

theorem byte_norm2 (x : Nat) : x % 128 ||| 128 = x % 128 + 128 :=
  lor128_small (Nat.mod_lt _ (by norm_num))

theorem loop_cont_mod (x v c2 : Nat) (rest : List Nat) :
    parse_int_loop (x % 128 + 128) v (c2 :: rest) =
      (parse_int_loop c2 ((128 * (v % 33554432)) ||| (c2 &&& 127)) rest).map
        fun r => (r.1, r.2 + 1) :=
  loop_cont (and128_of_add (Nat.mod_lt _ (by norm_num))) v c2 rest

theorem loop_stop_mod (x v : Nat) (l : List Nat) :
    parse_int_loop (x % 128) v l = some (v, 0) :=
  loop_stop (small_and128 _ (Nat.mod_lt _ (by norm_num))) v l

theorem parse_first_noext {x : Nat} (h : x % 128 < 96) (rest : List Nat) :
    parse_int ((x % 128 + 128) :: rest) =
      (parse_int_loop (x % 128 + 128) (x % 128) rest).map fun r => (r.1, r.2 + 1) := by
  have hy : x % 128 < 128 := Nat.mod_lt _ (by norm_num)
  rw [parse_int_cons, if_neg (fun hc => absurd ((byte_and96 _ hy).mp hc) (by omega)),
    byte_and127 _ hy]

theorem parse_first_ext {x : Nat} (h : 96 ≤ x % 128) (rest : List Nat) :
    parse_int ((x % 128 + 128) :: rest) =
      (parse_int_loop (x % 128 + 128) (x % 128 + 4294967168) rest).map
        fun r => (r.1, r.2 + 1) := by
  have hy : x % 128 < 128 := Nat.mod_lt _ (by norm_num)
  rw [parse_int_cons, if_pos ((byte_and96 _ hy).mpr h), byte_and127 _ hy,
    lor_sext _ hy h]

theorem parse_single_noext {x : Nat} (h : x % 128 < 96) (rest : List Nat) :
    parse_int ((x % 128) :: rest) = some (x % 128, 1) := by
  have hy : x % 128 < 128 := Nat.mod_lt _ (by norm_num)
  have hmm : x % 128 % 128 = x % 128 := by omega
  rw [parse_int_cons, if_neg (fun hc => absurd ((small_and96 _ hy).mp hc) (by omega)),
    and_0x7f_eq_mod, hmm, loop_stop (small_and128 _ hy)]
  rfl

theorem parse_single_ext {x : Nat} (h : 96 ≤ x % 128) (rest : List Nat) :
    parse_int ((x % 128) :: rest) = some (x % 128 + 4294967168, 1) := by
  have hy : x % 128 < 128 := Nat.mod_lt _ (by norm_num)
  have hmm : x % 128 % 128 = x % 128 := by omega
  rw [parse_int_cons, if_pos ((small_and96 _ hy).mpr h), and_0x7f_eq_mod, hmm,
    lor_sext _ hy h, loop_stop (small_and128 _ hy)]
  rfl

theorem enc_cond1 {v : Nat} (hv : v < 4294967296) :
    (i32 v < 3 * 2 ^ 5 ∧ -(2 ^ 5 : Int) ≤ i32 v) ↔ (v < 96 ∨ 4294967264 ≤ v) := by
  unfold i32
  split <;> omega

theorem enc_cond2 {v : Nat} (hv : v < 4294967296) :
    (i32 v < 3 * 2 ^ 12 ∧ -(2 ^ 12 : Int) ≤ i32 v) ↔ (v < 12288 ∨ 4294963200 ≤ v) := by
  unfold i32
  split <;> omega

theorem enc_cond3 {v : Nat} (hv : v < 4294967296) :
    (i32 v < 3 * 2 ^ 19 ∧ -(2 ^ 19 : Int) ≤ i32 v) ↔ (v < 1572864 ∨ 4294443008 ≤ v) := by
  unfold i32
  split <;> omega

theorem enc_cond4 {v : Nat} (hv : v < 4294967296) :
    (i32 v < 3 * 2 ^ 26 ∧ -(2 ^ 26 : Int) ≤ i32 v) ↔ (v < 201326592 ∨ 4227858432 ≤ v) := by
  unfold i32
  split <;> omega

/-- Claim C2: VLQ round-trip.  For every 32-bit value `v`, decoding the bytes
    produced by `encode_int v` with `parse_int` returns exactly `v`, and the
    cursor stops immediately after the last byte `encode_int` wrote: the
    consumed count equals `(encode_int v).length`, for any trailing bytes. -/
theorem C2_vlq_roundtrip (v : Nat) (hv : v < 2 ^ 32) (rest : List Nat) :
    parse_int (encode_int v ++ rest) = some (v, (encode_int v).length) := by
  have hv' : v < 4294967296 := by omega
  simp only [encode_int]
  by_cases h1 : v < 96 ∨ 4294967264 ≤ v
  · rw [if_pos ((enc_cond1 hv').mpr h1)]
    simp only [List.cons_append, List.nil_append, List.length_cons, List.length_nil,
      and_0x7f_eq_mod]
    rcases h1 with h | h
    · rw [parse_single_noext (by omega)]
      simp only [Option.some.injEq, Prod.mk.injEq, and_true, true_and]
      omega
    · rw [parse_single_ext (by omega)]
      simp only [Option.some.injEq, Prod.mk.injEq, and_true, true_and]
      omega
  · rw [if_neg (fun hc => h1 ((enc_cond1 hv').mp hc))]
    by_cases h2 : v < 12288 ∨ 4294963200 ≤ v
    · rw [if_pos ((enc_cond2 hv').mpr h2)]
      simp only [List.cons_append, List.nil_append, List.length_cons, List.length_nil,
        Nat.shiftRight_eq_div_pow, and_0x7f_eq_mod, byte_norm2]
      rcases h2 with h | h
      · rw [parse_first_noext (by omega), loop_cont_mod, and_0x7f_eq_mod,
          mul128_lor _ (by omega), loop_stop_mod]
        simp only [Option.map_some', Option.some.injEq, Prod.mk.injEq, and_true, true_and]
        omega
      · rw [parse_first_ext (by omega), loop_cont_mod, and_0x7f_eq_mod,
          mul128_lor _ (by omega), loop_stop_mod]
        simp only [Option.map_some', Option.some.injEq, Prod.mk.injEq, and_true, true_and]
        omega
    · rw [if_neg (fun hc => h2 ((enc_cond2 hv').mp hc))]
      by_cases h3 : v < 1572864 ∨ 4294443008 ≤ v
      · rw [if_pos ((enc_cond3 hv').mpr h3)]
        simp only [List.cons_append, List.nil_append, List.length_cons, List.length_nil,
          Nat.shiftRight_eq_div_pow, and_0x7f_eq_mod, byte_norm2]
        rcases h3 with h | h
        · rw [parse_first_noext (by omega), loop_cont_mod, byte_and127 _ (by omega),
            mul128_lor _ (by omega), loop_cont_mod, and_0x7f_eq_mod,
            mul128_lor _ (by omega), loop_stop_mod]
          simp only [Option.map_some', Option.some.injEq, Prod.mk.injEq, and_true, true_and]
          omega
        · rw [parse_first_ext (by omega), loop_cont_mod, byte_and127 _ (by omega),
            mul128_lor _ (by omega), loop_cont_mod, and_0x7f_eq_mod,
            mul128_lor _ (by omega), loop_stop_mod]
          simp only [Option.map_some', Option.some.injEq, Prod.mk.injEq, and_true, true_and]
          omega
      · rw [if_neg (fun hc => h3 ((enc_cond3 hv').mp hc))]
        by_cases h4 : v < 201326592 ∨ 4227858432 ≤ v
        · rw [if_pos ((enc_cond4 hv').mpr h4)]
          simp only [List.cons_append, List.nil_append, List.length_cons, List.length_nil,
            Nat.shiftRight_eq_div_pow, and_0x7f_eq_mod, byte_norm2]
          rcases h4 with h | h
          · rw [parse_first_noext (by omega), loop_cont_mod, byte_and127 _ (by omega),
              mul128_lor _ (by omega), loop_cont_mod, byte_and127 _ (by omega),
              mul128_lor _ (by omega), loop_cont_mod, and_0x7f_eq_mod,
              mul128_lor _ (by omega), loop_stop_mod]
            simp only [Option.map_some', Option.some.injEq, Prod.mk.injEq, and_true, true_and]
            omega
          · rw [parse_first_ext (by omega), loop_cont_mod, byte_and127 _ (by omega),
              mul128_lor _ (by omega), loop_cont_mod, byte_and127 _ (by omega),
              mul128_lor _ (by omega), loop_cont_mod, and_0x7f_eq_mod,
              mul128_lor _ (by omega), loop_stop_mod]
            simp only [Option.map_some', Option.some.injEq, Prod.mk.injEq, and_true, true_and]
            omega
        · rw [if_neg (fun hc => h4 ((enc_cond4 hv').mp hc))]
          have h28 : v / 2 ^ 28 % 128 = v / 2 ^ 28 := by omega
          have e5 : v >>> 28 ||| 128 = v / 2 ^ 28 % 128 + 128 := by
            rw [Nat.shiftRight_eq_div_pow, lor128_small (by omega : v / 2 ^ 28 < 128), h28]
          rw [e5]
          simp only [List.cons_append, List.nil_append, List.length_cons, List.length_nil,
            Nat.shiftRight_eq_div_pow, and_0x7f_eq_mod, byte_norm2]
          rw [parse_first_noext (by omega), loop_cont_mod, byte_and127 _ (by omega),
            mul128_lor _ (by omega), loop_cont_mod, byte_and127 _ (by omega),
            mul128_lor _ (by omega), loop_cont_mod, byte_and127 _ (by omega),
            mul128_lor _ (by omega), loop_cont_mod, and_0x7f_eq_mod,
            mul128_lor _ (by omega), loop_stop_mod]
          simp only [Option.map_some', Option.some.injEq, Prod.mk.injEq, and_true, true_and]
          omega

theorem and_0xff_eq_mod (x : Nat) : x &&& 255 = x % 256 := by
  have h := Nat.and_pow_two_sub_one_eq_mod x 8
  norm_num at h
  exact h

theorem and_0xffff_eq_mod (x : Nat) : x &&& 65535 = x % 65536 := by
  have h := Nat.and_pow_two_sub_one_eq_mod x 16
  norm_num at h
  exact h

theorem shl8_mod (x : Nat) : (x <<< 8) % 2 ^ 32 = 256 * (x % 16777216) := by
  rw [Nat.shiftLeft_eq]
  have h : (2 : Nat) ^ 32 = 16777216 * 2 ^ 8 := by norm_num
  rw [h, Nat.mul_mod_mul_right]
  ring

theorem mul256_lor {b : Nat} (a : Nat) (hb : b < 256) : (256 * a) ||| b = 256 * a + b := by
  have h := lor_two_pow_eq_add (k := 8) a (b := b) (by omega)
  norm_num at h
  exact h

theorem msgcrcOf_add (hi lo : Nat) :
    msgcrcOf hi lo = (256 * (sext8 hi % 16777216) + lo % 256) % 65536 := by
  unfold msgcrcOf
  rw [shl8_mod, and_0xff_eq_mod, mul256_lor _ (Nat.mod_lt _ (by norm_num)),
    and_0xffff_eq_mod]

theorem msgcrcOf_eq {hi lo : Nat} (hhi : hi < 256) (hlo : lo < 256) :
    msgcrcOf hi lo = 256 * hi + lo := by
  rw [msgcrcOf_add]
  unfold sext8
  split <;> omega

theorem crc16_update_le (crc b : Nat) : crc16_update crc b ≤ 65535 :=
  Nat.and_le_right

theorem crc16_foldl_le (l : List Nat) : ∀ acc, acc ≤ 65535 →
    l.foldl crc16_update acc ≤ 65535 := by
  induction l with
  | nil => intro acc h; exact h
  | cons b t ih => intro acc _; exact ih _ (crc16_update_le acc b)

theorem crc16_le (l : List Nat) : crc16_ccitt l ≤ 65535 :=
  crc16_foldl_le l 65535 (by omega)

theorem getD_append3_0 (l : List Nat) (a b c d : Nat) :
    (l ++ [a, b, c]).getD l.length d = a := by
  induction l with
  | nil => rfl
  | cons x t ih => simpa using ih

theorem getD_append3_1 (l : List Nat) (a b c d : Nat) :
    (l ++ [a, b, c]).getD (l.length + 1) d = b := by
  induction l with
  | nil => rfl
  | cons x t ih => simpa using ih

theorem getD_append3_2 (l : List Nat) (a b c d : Nat) :
    (l ++ [a, b, c]).getD (l.length + 2) d = c := by
  induction l with
  | nil => rfl
  | cons x t ih => simpa using ih

theorem dest_or : ∀ s < 16, 16 ||| s = 16 + s := by decide

theorem dest_and : ∀ s < 16, (16 + s) &&& 240 = 16 := by decide

theorem accept_frame {p : List Nat} {seq : Nat} (st : RecvState)
    (hlen : p.length ≤ 59) (hseq : seq < 16) (hsync : st.need_sync = false)
    (hns : st.next_sequence = 16 + seq) :
    command_get_message (buildFrame (16 + seq) p) st =
      { st := { st with
          need_valid := false,
          next_sequence := ((16 + seq + 1) &&& 15) ||| 16 },
        popped := 0, acked := true, naked := false, crc_ok := true,
        errored := false, ret := some (p.length + 5) } := by
  have hm : (p.length + 5) % 256 = p.length + 5 := by omega
  have hF : buildFrame (16 + seq) p =
      (((p.length + 5) % 256) :: (16 + seq) :: p) ++
        [crc16_ccitt (((p.length + 5) % 256) :: (16 + seq) :: p) >>> 8,
         crc16_ccitt (((p.length + 5) % 256) :: (16 + seq) :: p) &&& 255, 126] := rfl
  rw [hF]
  set C := crc16_ccitt (((p.length + 5) % 256) :: (16 + seq) :: p) with hC
  have hCle : C ≤ 65535 := crc16_le _
  set F := (((p.length + 5) % 256) :: (16 + seq) :: p) ++ [C >>> 8, C &&& 255, 126] with hFdef
  have hFc : F = ((p.length + 5) % 256) :: (16 + seq) :: (p ++ [C >>> 8, C &&& 255, 126]) := by
    rw [hFdef]
    simp
  have hlenF : F.length = p.length + 5 := by
    rw [hFc]
    simp
  have hg0 : F.getD 0 0 = p.length + 5 := by
    rw [hFc]
    simp [hm]
  have hg1 : F.getD 1 0 = 16 + seq := by
    rw [hFc]
    simp
  have e1 : p.length + 5 - 1 = p.length + 2 + 1 + 1 := by omega
  have hgsync : F.getD (p.length + 5 - 1) 0 = 126 := by
    rw [hFc, e1, List.getD_cons_succ, List.getD_cons_succ, getD_append3_2]
  have e2 : p.length + 5 - 3 = p.length + 1 + 1 := by omega
  have hghi : F.getD (p.length + 5 - 3) 0 = C >>> 8 := by
    rw [hFc, e2, List.getD_cons_succ, List.getD_cons_succ, getD_append3_0]
  have e3 : p.length + 5 - 3 + 1 = p.length + 1 + 1 + 1 := by omega
  have hglo : F.getD (p.length + 5 - 3 + 1) 0 = C &&& 255 := by
    rw [hFc, e3, List.getD_cons_succ, List.getD_cons_succ, getD_append3_1]
  have htake : F.take (p.length + 5 - 3) = ((p.length + 5) % 256) :: (16 + seq) :: p := by
    rw [hFdef]
    refine List.take_left' ?_
    simp
  have hcrcOk : crcCheckOk F (p.length + 5) = true := by
    unfold crcCheckOk
    rw [MESSAGE_TRAILER_SIZE, MESSAGE_TRAILER_CRC]
    rw [htake, hghi, hglo, ← hC]
    rw [msgcrcOf_eq (by rw [Nat.shiftRight_eq_div_pow]; omega)
      (by rw [and_0xff_eq_mod]; omega)]
    rw [Nat.shiftRight_eq_div_pow, and_0xff_eq_mod]
    have hcc : 256 * (C / 2 ^ 8) + C % 256 = C := by omega
    rw [hcc]
    exact beq_self_eq_true C
  simp only [command_get_message, MESSAGE_MIN, MESSAGE_MAX, MESSAGE_POS_LEN,
    MESSAGE_POS_SEQ, MESSAGE_TRAILER_SYNC, MESSAGE_SEQ_MASK, MESSAGE_DEST, MESSAGE_SYNC]
  rw [hg0, hg1]
  rw [if_neg (by simp [hsync])]
  rw [if_neg (by rw [hlenF]; omega : ¬ F.length < 5)]
  rw [if_neg (by omega : ¬ (p.length + 5 < 5 ∨ 64 < p.length + 5))]
  rw [if_neg (by rw [dest_and seq hseq]; omega : ¬ ((16 + seq) &&& 240 ≠ 16))]
  rw [if_neg (by rw [hlenF]; omega : ¬ F.length < p.length + 5)]
  rw [hgsync]
  rw [if_neg (by omega : ¬ ((126 : Nat) ≠ 126))]
  rw [hcrcOk]
  rw [if_neg (by simp)]
  rw [if_neg (by rw [hns]; omega : ¬ (16 + seq ≠ st.next_sequence))]

/-- Claim C3, counterexample: the claim says `encode_int 0x20` produces 2
    bytes; on the code it takes the 1-byte branch (`sv < 3 << 5 = 96`) and
    produces the single byte `0x20`. -/
theorem C3_cx : encode_int 0x20 = [0x20] ∧ (encode_int 0x20).length ≠ 2 := by
  constructor <;> decide

/-- Claim C3, amended: the boundary values 0x00000000, 0x0000001F, 0x00000020,
    0x7FFFFFFF, 0x80000000, 0xFFFFFFFF encode to 1, 1, 1, 5, 5, 1 bytes
    respectively (0x20 is still within the encoder's signed 1-byte range,
    which extends to 95), and each round-trips through `parse_int`. -/
theorem C3_amended :
    (encode_int 0x00000000).length = 1 ∧ parse_int (encode_int 0x00000000) = some (0x00000000, 1) ∧
    (encode_int 0x0000001F).length = 1 ∧ parse_int (encode_int 0x0000001F) = some (0x0000001F, 1) ∧
    (encode_int 0x00000020).length = 1 ∧ parse_int (encode_int 0x00000020) = some (0x00000020, 1) ∧
    (encode_int 0x7FFFFFFF).length = 5 ∧ parse_int (encode_int 0x7FFFFFFF) = some (0x7FFFFFFF, 5) ∧
    (encode_int 0x80000000).length = 5 ∧ parse_int (encode_int 0x80000000) = some (0x80000000, 5) ∧
    (encode_int 0xFFFFFFFF).length = 1 ∧ parse_int (encode_int 0xFFFFFFFF) = some (0xFFFFFFFF, 1) := by
  decide

/-- Claim C7: CRC comparison semantics.  For every frame reaching step 7 of
    reception (`msglen` at least the 5-byte minimum), the check `crcCheckOk`
    succeeds exactly when the two trailer bytes, read as a big-endian 16-bit
    value, equal `crc16_ccitt` over `buf[0..msglen-3)` — including when the
    stored high CRC byte has bit 7 set: the sign extension of the signed-char
    read is cancelled by the `uint16_t` truncation (`msgcrcOf_eq`). -/
theorem C7_crc_semantics (buf : List Nat) (msglen : Nat) (hmsg : 5 ≤ msglen)
    (hhi : buf.getD (msglen - 3) 0 < 256) (hlo : buf.getD (msglen - 2) 0 < 256) :
    crcCheckOk buf msglen = true ↔
      crc16_ccitt (buf.take (msglen - 3)) =
        256 * buf.getD (msglen - 3) 0 + buf.getD (msglen - 2) 0 := by
  unfold crcCheckOk
  rw [MESSAGE_TRAILER_SIZE, MESSAGE_TRAILER_CRC]
  have e : msglen - 3 + 1 = msglen - 2 := by omega
  rw [e]
  rw [msgcrcOf_eq hhi hlo]
  exact beq_iff_eq

/-- Claim C10: empty-payload frame shape.  For an encoder with `max_size = 0`,
    `_sendf` skips the encoding loop (no msg_id byte) and, when the transport
    reservation succeeds, commits exactly 5 bytes: LEN 5, SEQ equal to the
    current `next_sequence`, the big-endian CRC of the first two bytes, and
    0x7E; when the reservation fails nothing is sent; in both cases
    `next_sequence` is left unchanged. -/
theorem C10_empty_frame (ns : Nat) (ok : Bool) :
    (sendf_empty ns ok).next_sequence = ns ∧
    (ok = true →
      (sendf_empty ns ok).frame =
        some [MESSAGE_MIN, ns, crc16_ccitt [MESSAGE_MIN, ns] >>> 8,
              crc16_ccitt [MESSAGE_MIN, ns] &&& 0xff, MESSAGE_SYNC] ∧
      ∀ l, (sendf_empty ns ok).frame = some l → l.length = 5) ∧
    (ok = false → (sendf_empty ns ok).frame = none) := by
  cases ok <;> simp [sendf_empty]

theorem needSyncPath_spec (buf : List Nat) (st : RecvState) (e : Bool) :
    (needSyncPath buf st e).st.next_sequence = st.next_sequence ∧
    (needSyncPath buf st e).ret = none ∧
    (needSyncPath buf st e).errored = e ∧
    (needSyncPath buf st e).crc_ok = false ∧
    (needSyncPath buf st e).acked = false ∧
    (needSyncPath buf st e).naked = !st.need_valid ∧
    (needSyncPath buf st e).st.need_valid = true := by
  unfold needSyncPath nakPath
  cases h : buf.findIdx? (fun b => b == MESSAGE_SYNC) <;>
    cases hv : st.need_valid <;> simp [h, hv]

theorem errorPath_spec (buf : List Nat) (st : RecvState) :
    (errorPath buf st).st.next_sequence = st.next_sequence ∧
    (errorPath buf st).ret = none ∧
    (errorPath buf st).errored = true ∧
    (errorPath buf st).crc_ok = false ∧
    (errorPath buf st).acked = false ∧
    (buf.getD 0 0 = MESSAGE_SYNC →
      (errorPath buf st).popped = 1 ∧ (errorPath buf st).naked = false) ∧
    ((errorPath buf st).naked = true →
      st.need_valid = false ∧ (errorPath buf st).st.need_valid = true) ∧
    (st.need_valid = true → (errorPath buf st).naked = false) ∧
    (st.need_valid = true → (errorPath buf st).st.need_valid = true) := by
  unfold errorPath
  by_cases h : buf.getD 0 0 = MESSAGE_SYNC
  · rw [if_pos h]
    simp [h]
  · have hs := needSyncPath_spec buf { st with need_sync := true } true
    rw [if_neg h]
    obtain ⟨s1, s2, s3, s4, s5, s6, s7⟩ := hs
    refine ⟨s1, s2, s3, s4, s5, fun hc => absurd hc h, ?_, ?_, fun _ => s7⟩
    · intro hn
      rw [s6] at hn
      simp only [Bool.not_eq_true'] at hn
      exact ⟨hn, s7⟩
    · intro hv
      rw [s6]
      simp only [hv]
      rfl

/-- Claim C4: sequence-number state machine.  Whenever `command_get_message`
    accepts a frame (returns it), the frame's SEQ byte equals `next_sequence`
    and the new `next_sequence` is `((old SEQ + 1) &&& 0x0F) ||| 0x10`; on
    every call that returns NULL, `next_sequence` is unchanged. -/
theorem C4_sequence (buf : List Nat) (st : RecvState) :
    ((command_get_message buf st).ret.isSome = true →
      buf.getD MESSAGE_POS_SEQ 0 = st.next_sequence ∧
      (command_get_message buf st).st.next_sequence =
        ((st.next_sequence + 1) &&& MESSAGE_SEQ_MASK) ||| MESSAGE_DEST) ∧
    ((command_get_message buf st).ret = none →
      (command_get_message buf st).st.next_sequence = st.next_sequence) := by
  simp only [command_get_message]
  split_ifs with h1 h2 h3 h4 h5 h6 h7 h8
  · obtain ⟨s1, s2, _⟩ := needSyncPath_spec buf st false
    refine ⟨fun hs => ?_, fun _ => s1⟩
    rw [s2] at hs
    simp at hs
  · exact ⟨fun hs => by simp at hs, fun _ => rfl⟩
  · obtain ⟨e1, e2, _⟩ := errorPath_spec buf st
    refine ⟨fun hs => ?_, fun _ => e1⟩
    rw [e2] at hs
    simp at hs
  · obtain ⟨e1, e2, _⟩ := errorPath_spec buf st
    refine ⟨fun hs => ?_, fun _ => e1⟩
    rw [e2] at hs
    simp at hs
  · exact ⟨fun hs => by simp at hs, fun _ => rfl⟩
  · obtain ⟨e1, e2, _⟩ := errorPath_spec buf st
    refine ⟨fun hs => ?_, fun _ => e1⟩
    rw [e2] at hs
    simp at hs
  · exact ⟨fun hs => by simp [nakPath] at hs, fun _ => by simp [nakPath]⟩
  · push_neg at h8
    exact ⟨fun _ => ⟨h8, by simp only [h8]⟩, fun hn => by simp at hn⟩
  · obtain ⟨e1, e2, _⟩ := errorPath_spec buf st
    refine ⟨fun hs => ?_, fun _ => e1⟩
    rw [e2] at hs
    simp at hs

theorem errorPath_latch (buf : List Nat) (st : RecvState) :
    ((errorPath buf st).naked = true →
      (errorPath buf st).crc_ok = true ∨
        (st.need_valid = false ∧ (errorPath buf st).st.need_valid = true)) ∧
    (st.need_valid = true → (errorPath buf st).crc_ok = false →
      (errorPath buf st).naked = false) ∧
    (st.need_valid = true → (errorPath buf st).st.need_valid = false →
      (errorPath buf st).crc_ok = true) ∧
    ((errorPath buf st).errored = true → buf.getD 0 0 = MESSAGE_SYNC →
      (errorPath buf st).popped = 1 ∧ (errorPath buf st).naked = false ∧
        (errorPath buf st).ret = none) := by
  obtain ⟨e1, e2, e3, e4, e5, e6, e7, e8, e9⟩ := errorPath_spec buf st
  refine ⟨fun hn => Or.inr (e7 hn), fun hv _ => e8 hv,
    fun hv hnv => absurd (e9 hv) (by simp [hnv]),
    fun _ hc => ⟨(e6 hc).1, (e6 hc).2, e2⟩⟩

theorem needSyncPath_latch (buf : List Nat) (st : RecvState) :
    ((needSyncPath buf st false).naked = true →
      (needSyncPath buf st false).crc_ok = true ∨
        (st.need_valid = false ∧ (needSyncPath buf st false).st.need_valid = true)) ∧
    (st.need_valid = true → (needSyncPath buf st false).crc_ok = false →
      (needSyncPath buf st false).naked = false) ∧
    (st.need_valid = true → (needSyncPath buf st false).st.need_valid = false →
      (needSyncPath buf st false).crc_ok = true) ∧
    ((needSyncPath buf st false).errored = true → buf.getD 0 0 = MESSAGE_SYNC →
      (needSyncPath buf st false).popped = 1 ∧ (needSyncPath buf st false).naked = false ∧
        (needSyncPath buf st false).ret = none) := by
  obtain ⟨s1, s2, s3, s4, s5, s6, s7⟩ := needSyncPath_spec buf st false
  refine ⟨fun hn => ?_, fun hv _ => ?_, fun hv hnv => absurd s7 (by simp [hnv]),
    fun he _ => absurd he (by simp [s3])⟩
  · rw [s6] at hn
    simp only [Bool.not_eq_true'] at hn
    exact Or.inr ⟨hn, s7⟩
  · rw [s6, hv]
    rfl

/-- Claim C5: NAK suppression discipline.  (1) A NAK is emitted only after a
    CRC-valid frame (the out-of-sequence NAK) or, on the resync path, only when
    the `CF_NEED_VALID` latch was clear, and then the latch is set; (2) with
    the latch set, an invalid frame emits no NAK; (3) the latch is cleared only
    by a passing CRC check; (4) on the invalid-frame path with the first byte
    already 0x7E, exactly one byte is popped and no NAK is emitted. -/
theorem C5_nak_latch (buf : List Nat) (st : RecvState) :
    ((command_get_message buf st).naked = true →
      (command_get_message buf st).crc_ok = true ∨
        (st.need_valid = false ∧ (command_get_message buf st).st.need_valid = true)) ∧
    (st.need_valid = true → (command_get_message buf st).crc_ok = false →
      (command_get_message buf st).naked = false) ∧
    (st.need_valid = true → (command_get_message buf st).st.need_valid = false →
      (command_get_message buf st).crc_ok = true) ∧
    ((command_get_message buf st).errored = true → buf.getD 0 0 = MESSAGE_SYNC →
      (command_get_message buf st).popped = 1 ∧ (command_get_message buf st).naked = false ∧
        (command_get_message buf st).ret = none) := by
  simp only [command_get_message]
  split_ifs with h1 h2 h3 h4 h5 h6 h7 h8
  · exact needSyncPath_latch buf st
  · simp
  · exact errorPath_latch buf st
  · exact errorPath_latch buf st
  · simp
  · exact errorPath_latch buf st
  · simp [nakPath]
  · simp
  · exact errorPath_latch buf st

theorem buildFrame_payload {p : List Nat} {s : Nat} (hlen : p.length ≤ 59) :
    framePayload (buildFrame s p) = p := by
  have hm : (p.length + 5) % 256 = p.length + 5 := by omega
  have hF : buildFrame s p =
      (((p.length + 5) % 256) :: s :: p) ++
        [crc16_ccitt (((p.length + 5) % 256) :: s :: p) >>> 8,
         crc16_ccitt (((p.length + 5) % 256) :: s :: p) &&& 255, 126] := rfl
  unfold framePayload
  rw [hF]
  have hg0 : ((((p.length + 5) % 256) :: s :: p) ++
      [crc16_ccitt (((p.length + 5) % 256) :: s :: p) >>> 8,
       crc16_ccitt (((p.length + 5) % 256) :: s :: p) &&& 255, 126]).getD MESSAGE_POS_LEN 0 =
      p.length + 5 := by
    simp [MESSAGE_POS_LEN, hm]
  rw [hg0, MESSAGE_TRAILER_SIZE, MESSAGE_HEADER_SIZE]
  have e : p.length + 5 - 3 = p.length + 2 := by omega
  rw [e]
  rw [List.take_left' (by simp)]
  rfl

theorem buildFrame_seq {p : List Nat} (s : Nat) :
    (buildFrame s p).getD MESSAGE_POS_SEQ 0 = s := by
  have hF : buildFrame s p =
      (((p.length + 5) % 256) :: s :: p) ++
        [crc16_ccitt (((p.length + 5) % 256) :: s :: p) >>> 8,
         crc16_ccitt (((p.length + 5) % 256) :: s :: p) &&& 255, 126] := rfl
  rw [hF]
  simp [MESSAGE_POS_SEQ]

theorem dest_mask : ∀ s < 16, (16 + s) &&& 15 = s := by decide

/-- Claim C6: frame length bounds.  `command_get_message` takes the fail path
    (the `error` label) for any frame whose LEN byte is below 5 or above 64,
    and accepts a frame of LEN exactly 64 (a 59-byte payload) when all other
    checks pass; a frame claiming length 65 falls under the first part. -/
theorem C6_length_bounds :
    (∀ (buf : List Nat) (st : RecvState), st.need_sync = false → 5 ≤ buf.length →
      (buf.getD MESSAGE_POS_LEN 0 < MESSAGE_MIN ∨ MESSAGE_MAX < buf.getD MESSAGE_POS_LEN 0) →
      (command_get_message buf st).errored = true ∧
        (command_get_message buf st).ret = none) ∧
    (∀ (p : List Nat) (seq : Nat) (st : RecvState), p.length = 59 → seq < 16 →
      st.need_sync = false → st.next_sequence = MESSAGE_DEST ||| seq →
      (command_get_message (buildFrame (MESSAGE_DEST ||| seq) p) st).ret = some 64) := by
  constructor
  · intro buf st hsync hlen hbad
    simp only [command_get_message]
    rw [if_neg (by simp [hsync]), if_neg (by simp only [MESSAGE_MIN]; omega), if_pos hbad]
    exact ⟨(errorPath_spec buf st).2.2.1, (errorPath_spec buf st).2.1⟩
  · intro p seq st hp hseq hsync hns
    simp only [MESSAGE_DEST] at hns ⊢
    rw [dest_or seq hseq] at hns ⊢
    rw [accept_frame st (by omega) hseq hsync hns]
    simp [hp]

/-- Claim C1: frame round-trip.  For every payload `p` of length 0-59 (bytes)
    and sequence `seq` in [0,15], the frame built by the transmission path
    (`buildFrame`: LEN, SEQ `0x10 ||| seq`, payload, big-endian CRC, 0x7E),
    presented to `command_get_message` with `next_sequence = 0x10 ||| seq`,
    is accepted (returned and acked), and the receiver recovers exactly the
    payload `p` (the bytes `command_task` walks) and the sequence `seq`. -/
theorem C1_frame_roundtrip (p : List Nat) (seq : Nat) (st : RecvState)
    (hlen : p.length ≤ 59) (_hbytes : ∀ b ∈ p, b < 256) (hseq : seq < 16)
    (hsync : st.need_sync = false) (hns : st.next_sequence = MESSAGE_DEST ||| seq) :
    (command_get_message (buildFrame (MESSAGE_DEST ||| seq) p) st).ret =
        some (p.length + 5) ∧
    (command_get_message (buildFrame (MESSAGE_DEST ||| seq) p) st).acked = true ∧
    framePayload (buildFrame (MESSAGE_DEST ||| seq) p) = p ∧
    (buildFrame (MESSAGE_DEST ||| seq) p).getD MESSAGE_POS_SEQ 0 &&& MESSAGE_SEQ_MASK =
        seq := by
  simp only [MESSAGE_DEST, MESSAGE_SEQ_MASK] at hns ⊢
  rw [dest_or seq hseq] at hns ⊢
  rw [accept_frame st hlen hseq hsync hns]
  refine ⟨rfl, rfl, buildFrame_payload hlen, ?_⟩
  rw [buildFrame_seq (16 + seq), dest_mask seq hseq]

/-- Claim C8, counterexample: with one `PT_uint32` parameter and `maxend = 1`,
    the VLQ at position 0 spans bytes 0 and 1, leaving the cursor at 2, past
    `maxend` — yet `parsef` returns the cursor (`ok`), not the
    "Command parser error" shutdown: a crossing caused by the final parameter
    is never checked (the `p > maxend` test runs only at the start of each
    iteration). -/
theorem C8_cx :
    parsef false 0 0 [PT_uint32] [0x80, 0x01] 0 1 = ParsefResult.ok 2 [1] ∧
    parsef false 0 0 [PT_uint32] [0x80, 0x01] 0 1 ≠ ParsefResult.err ∧ 1 < 2 := by
  refine ⟨by decide, by decide, by omega⟩

theorem parsefLoop_unknown (buf : List Nat) (maxend t : Nat)
    (hti : ¬(t = PT_uint32 ∨ t = PT_int32 ∨ t = PT_uint16 ∨ t = PT_int16 ∨ t = PT_byte))
    (htb : t ≠ PT_buffer) :
    ∀ (types : List Nat) (pos : Nat) (args : List Nat), t ∈ types →
      ∀ pos2 args2, parsefLoop buf maxend types pos args ≠ ParsefResult.ok pos2 args2 := by
  intro types
  induction types with
  | nil =>
    intro pos args h
    simp at h
  | cons t2 rest ih =>
    intro pos args hmem pos2 args2
    rcases List.mem_cons.mp hmem with heq | hmem2
    · subst heq
      simp only [parsefLoop]
      split_ifs with hp <;> simp
    · simp only [parsefLoop]
      split_ifs with hp hint hbuf hb2
      · simp
      · cases hpi : parse_int (buf.drop pos) with
        | none => simp [hpi]
        | some r => simp only [hpi]; exact ih _ _ hmem2 pos2 args2
      · simp
      · exact ih _ _ hmem2 pos2 args2
      · simp

/-- Claim C8, amended: `parsef` shuts down with "Command parser error" when
    the cursor is already past `maxend` at the start of a parameter iteration,
    whenever an unknown parameter type is encountered as the next parameter
    (and hence an unknown type anywhere in the schema makes an `ok` result
    impossible), and when a `PT_buffer` length would cross `maxend`; a
    crossing caused by the final integer parameter is not detected (see the
    counterexample). -/
theorem C8_parser_bounds :
    (∀ (reason flags : Nat) (buf : List Nat) (maxend t pos : Nat) (ts : List Nat),
      maxend < pos →
      parsef false reason flags (t :: ts) buf pos maxend = ParsefResult.err) ∧
    (∀ (reason flags t : Nat) (ts buf : List Nat) (pos maxend : Nat),
      ¬(t = PT_uint32 ∨ t = PT_int32 ∨ t = PT_uint16 ∨ t = PT_int16 ∨ t = PT_byte) →
      t ≠ PT_buffer →
      parsef false reason flags (t :: ts) buf pos maxend = ParsefResult.err) ∧
    (∀ (reason flags t : Nat) (types buf : List Nat) (pos maxend : Nat),
      t ∈ types →
      ¬(t = PT_uint32 ∨ t = PT_int32 ∨ t = PT_uint16 ∨ t = PT_int16 ∨ t = PT_byte) →
      t ≠ PT_buffer →
      ∀ pos2 args2, parsef false reason flags types buf pos maxend ≠
        ParsefResult.ok pos2 args2) ∧
    (∀ (reason flags : Nat) (ts buf : List Nat) (pos maxend : Nat),
      ¬ maxend < pos → maxend < pos + 1 + buf.getD pos 0 →
      parsef false reason flags (PT_buffer :: ts) buf pos maxend = ParsefResult.err) := by
  refine ⟨?_, ?_, ?_, ?_⟩
  · intro reason flags buf maxend t pos ts h
    unfold parsef
    rw [if_neg (by simp)]
    simp only [parsefLoop]
    rw [if_pos h]
  · intro reason flags t ts buf pos maxend hti htb
    unfold parsef
    rw [if_neg (by simp)]
    simp only [parsefLoop]
    split_ifs with hp
    · rfl
    · rfl
  · intro reason flags t types buf pos maxend hmem hti htb pos2 args2
    unfold parsef
    rw [if_neg (by simp)]
    exact parsefLoop_unknown buf maxend t hti htb types pos [] hmem pos2 args2
  · intro reason flags ts buf pos maxend h1 h2
    unfold parsef
    rw [if_neg (by simp)]
    simp only [parsefLoop]
    rw [if_neg h1, if_neg (by decide), if_pos trivial, if_pos h2]

/-- Claim C9: shutdown guard.  If the device is in shutdown and the parser's
    flags lack `HF_IN_SHUTDOWN`, `parsef` consumes nothing and parses nothing —
    it returns the skip result carrying the shutdown reason (the `is_shutdown`
    response payload); the dispatcher `command_task` then stops processing the
    remaining commands of the frame (no handler invocations) and pops the whole
    frame. -/
theorem C9_shutdown_skip :
    (∀ (reason flags : Nat) (types buf : List Nat) (pos maxend : Nat),
      flags &&& HF_IN_SHUTDOWN = 0 →
      parsef true reason flags types buf pos maxend = ParsefResult.skip reason) ∧
    (∀ (idx : List (Option Parser)) (reason : Nat) (st : RecvState) (input : List Nat)
        (m : Nat) (cp : Parser),
      (command_get_message input st).ret = some m → 6 ≤ m →
      idx.getD (input.getD MESSAGE_HEADER_SIZE 0) none = some cp →
      cp.flags &&& HF_IN_SHUTDOWN = 0 →
      command_task idx true reason st input =
        { st := (command_get_message input st).st,
          popped := (command_get_message input st).popped + m,
          invocations := [], shutdownResp := some reason, fatal := none }) := by
  have hguard : ∀ (reason flags : Nat) (types buf : List Nat) (pos maxend : Nat),
      flags &&& HF_IN_SHUTDOWN = 0 →
      parsef true reason flags types buf pos maxend = ParsefResult.skip reason := by
    intro reason flags types buf pos maxend hf
    unfold parsef
    rw [if_pos ⟨rfl, hf⟩]
  refine ⟨hguard, ?_⟩
  intro idx reason st input m cp hret hm hcp hflags
  simp only [MESSAGE_HEADER_SIZE] at hcp
  simp only [command_task, MESSAGE_TRAILER_SIZE, MESSAGE_HEADER_SIZE, hret]
  obtain ⟨k, hk⟩ : ∃ k, m - 3 = k + 1 := ⟨m - 4, by omega⟩
  rw [hk]
  simp only [commandLoop]
  rw [if_neg (by omega)]
  simp only [hcp]
  rw [hguard reason cp.flags cp.param_types input (2 + 1) (k + 1) hflags]

/-! ## Witnesses: the claim theorems applied at concrete inputs -/

/-- Witness for C1 at payload [7, 42] and sequence 0. -/
theorem C1_frame_roundtrip_witness :
    List.length [7, 42] ≤ 59 ∧ (0 : Nat) < 16 ∧
    (command_get_message (buildFrame (MESSAGE_DEST ||| 0) [7, 42])
        ⟨0x10, false, false⟩).ret = some (List.length [7, 42] + 5) :=
  ⟨by decide, by decide,
    (C1_frame_roundtrip [7, 42] 0 ⟨0x10, false, false⟩ (by decide) (by decide) (by decide)
      (by decide) (by decide)).1⟩

/-- Witness for C2 at value 123456789 with trailing bytes. -/
theorem C2_vlq_roundtrip_witness :
    (123456789 : Nat) < 2 ^ 32 ∧
    parse_int (encode_int 123456789 ++ [9, 9]) =
      some (123456789, (encode_int 123456789).length) :=
  ⟨by decide, C2_vlq_roundtrip 123456789 (by decide) [9, 9]⟩

/-- Witness for C4 at an accepted empty frame. -/
theorem C4_sequence_witness :
    (command_get_message (buildFrame 0x10 []) ⟨0x10, false, false⟩).ret.isSome = true ∧
    List.getD (buildFrame 0x10 []) MESSAGE_POS_SEQ 0 =
      (⟨0x10, false, false⟩ : RecvState).next_sequence ∧
    (command_get_message (buildFrame 0x10 []) ⟨0x10, false, false⟩).st.next_sequence =
      (((⟨0x10, false, false⟩ : RecvState).next_sequence + 1) &&& MESSAGE_SEQ_MASK) |||
        MESSAGE_DEST :=
  ⟨by decide,
    ((C4_sequence (buildFrame 0x10 []) ⟨0x10, false, false⟩).1 (by decide)).1,
    ((C4_sequence (buildFrame 0x10 []) ⟨0x10, false, false⟩).1 (by decide)).2⟩

/-- Witness for C5: a leading 0x7E on the invalid path pops one byte, no NAK. -/
theorem C5_nak_latch_witness :
    (command_get_message [0x7E, 0xFF, 1, 2, 3] ⟨0x10, false, false⟩).errored = true ∧
    List.getD [0x7E, 0xFF, 1, 2, 3] 0 0 = MESSAGE_SYNC ∧
    ((command_get_message [0x7E, 0xFF, 1, 2, 3] ⟨0x10, false, false⟩).popped = 1 ∧
     (command_get_message [0x7E, 0xFF, 1, 2, 3] ⟨0x10, false, false⟩).naked = false ∧
     (command_get_message [0x7E, 0xFF, 1, 2, 3] ⟨0x10, false, false⟩).ret = none) :=
  ⟨by decide, by decide,
    (C5_nak_latch [0x7E, 0xFF, 1, 2, 3] ⟨0x10, false, false⟩).2.2.2 (by decide) (by decide)⟩

/-- Witness for C6: LEN 65 rejected, LEN 64 accepted. -/
theorem C6_length_bounds_witness :
    ((command_get_message [65, 0x10, 0, 0, 0] ⟨0x10, false, false⟩).errored = true ∧
     (command_get_message [65, 0x10, 0, 0, 0] ⟨0x10, false, false⟩).ret = none) ∧
    (command_get_message (buildFrame (MESSAGE_DEST ||| 0) (List.replicate 59 7))
        ⟨0x10, false, false⟩).ret = some 64 :=
  ⟨C6_length_bounds.1 [65, 0x10, 0, 0, 0] ⟨0x10, false, false⟩ (by decide) (by decide)
      (by decide),
   C6_length_bounds.2 (List.replicate 59 7) 0 ⟨0x10, false, false⟩ (by decide) (by decide)
      (by decide) (by decide)⟩

/-- Witness for C7 at a trailer whose high CRC byte has bit 7 set. -/
theorem C7_crc_semantics_witness :
    (5 : Nat) ≤ 5 ∧ List.getD [1, 2, 0xB0, 0xE5, 0x7E] (5 - 3) 0 < 256 ∧
    List.getD [1, 2, 0xB0, 0xE5, 0x7E] (5 - 2) 0 < 256 ∧
    (crcCheckOk [1, 2, 0xB0, 0xE5, 0x7E] 5 = true ↔
      crc16_ccitt (List.take (5 - 3) [1, 2, 0xB0, 0xE5, 0x7E]) =
        256 * List.getD [1, 2, 0xB0, 0xE5, 0x7E] (5 - 3) 0 +
          List.getD [1, 2, 0xB0, 0xE5, 0x7E] (5 - 2) 0) :=
  ⟨by decide, by decide, by decide,
    C7_crc_semantics [1, 2, 0xB0, 0xE5, 0x7E] 5 (by decide) (by decide) (by decide)⟩

/-- Witness for C8 exercising all amended clauses. -/
theorem C8_parser_bounds_witness :
    ((0 : Nat) < 1 ∧ parsef false 0 0 [PT_uint32] [] 1 0 = ParsefResult.err) ∧
    parsef false 0 0 [PT_string] [1, 2] 0 2 = ParsefResult.err ∧
    parsef false 0 0 [PT_string] [1, 2] 0 2 ≠ ParsefResult.ok 1 [] ∧
    (¬ (3 : Nat) < 0 ∧ (3 : Nat) < 0 + 1 + List.getD [9] 0 0 ∧
      parsef false 0 0 [PT_buffer] [9] 0 3 = ParsefResult.err) :=
  ⟨⟨by decide, C8_parser_bounds.1 0 0 [] 0 PT_uint32 1 [] (by decide)⟩,
   C8_parser_bounds.2.1 0 0 PT_string [] [1, 2] 0 2 (by decide) (by decide),
   C8_parser_bounds.2.2.1 0 0 PT_string [PT_string] [1, 2] 0 2 (by decide) (by decide)
     (by decide) 1 [],
   ⟨by decide, by decide, C8_parser_bounds.2.2.2 0 0 [] [9] 0 3 (by decide) (by decide)⟩⟩

/-- Witness for C9: a one-command frame dispatched while shut down. -/
theorem C9_shutdown_skip_witness :
    ((0 : Nat) &&& HF_IN_SHUTDOWN = 0 ∧
      parsef true 77 0 [PT_uint32] [1, 2, 3] 0 3 = ParsefResult.skip 77) ∧
    ((command_get_message (buildFrame 0x10 [0]) ⟨0x10, false, false⟩).ret = some 6 ∧
      command_task [some ⟨0, []⟩] true 77 ⟨0x10, false, false⟩ (buildFrame 0x10 [0]) =
        { st := (command_get_message (buildFrame 0x10 [0]) ⟨0x10, false, false⟩).st,
          popped :=
            (command_get_message (buildFrame 0x10 [0]) ⟨0x10, false, false⟩).popped + 6,
          invocations := [], shutdownResp := some 77, fatal := none }) :=
  ⟨⟨by decide, C9_shutdown_skip.1 77 0 [PT_uint32] [1, 2, 3] 0 3 (by decide)⟩,
   ⟨by decide,
    C9_shutdown_skip.2 [some ⟨0, []⟩] 77 ⟨0x10, false, false⟩ (buildFrame 0x10 [0]) 6
      ⟨0, []⟩ (by decide) (by decide) (by decide) (by decide)⟩⟩

/-- Witness for C10 at sequence byte 0x13, both reservation outcomes. -/
theorem C10_empty_frame_witness :
    ((sendf_empty 0x13 true).next_sequence = 0x13 ∧
      (sendf_empty 0x13 true).frame =
        some [MESSAGE_MIN, 0x13, crc16_ccitt [MESSAGE_MIN, 0x13] >>> 8,
              crc16_ccitt [MESSAGE_MIN, 0x13] &&& 0xff, MESSAGE_SYNC]) ∧
    (sendf_empty 0x13 false).frame = none :=
  ⟨⟨(C10_empty_frame 0x13 true).1, ((C10_empty_frame 0x13 true).2.1 rfl).1⟩,
    (C10_empty_frame 0x13 false).2.2 rfl⟩
